import Mathlib

/-!
Verification development for the schema inference and type-coercion engine of
tap-spreadsheets-anywhere.  The definitions below are a shallow embedding of
`tap_spreadsheets_anywhere/conversion.py`, `tap_spreadsheets_anywhere/excel_handler.py`
and `tap_spreadsheets_anywhere/__init__.py`.  Python scalar values are modelled by
`PyVal` (floats are modelled exactly: every IEEE-754 double is a decimal
fraction, so a float is the pair `num / 10 ^ exp`), Python dicts by association
lists with overwrite-on-insert, and fallible code by `Except PyError`.
-/

deriving instance DecidableEq for Except

namespace TapSpreadsheets

/-- An exact Python float: the value `num / 10 ^ exp`.  Every IEEE-754 double is
of this shape, and all float arithmetic performed by the source (truncation,
`% 1`, `* 60`, decimal printing) stays within the fragment and is exact. -/
structure PyFloat where
  num : Int
  exp : Nat
deriving DecidableEq, Repr

/-- A Python scalar cell value: `None`, `int`, `float` or `str`. -/
inductive PyVal
  | none
  | int (n : Int)
  | float (f : PyFloat)
  | str (s : String)
deriving DecidableEq, Repr

/-- Python exception kinds raised (or caught) by the embedded code. -/
inductive PyError
  | typeError
  | valueError
  | indexError
deriving DecidableEq, Repr

/-! ### Character and string helpers (ASCII models of Python `str` methods and
the `re` patterns used by the source; the source data is ASCII). -/

/-- The ASCII whitespace characters matched by Python's `\s`, `str.strip` and
`str.lower` pipelines: space, tab, newline, carriage return, vertical tab, form feed. -/
def isPySpace (c : Char) : Bool :=
  c == ' ' || c == '\t' || c == '\n' || c == '\r' || c == '\x0b' || c == '\x0c'

/-- Python regex `\w` (word character), ASCII fragment: alphanumeric or underscore. -/
def isWordChar (c : Char) : Bool :=
  c.isAlphanum || c == '_'

/-- ASCII lowercase of a single character (Python `str.lower`, ASCII fragment). -/
def asciiLowerChar (c : Char) : Char :=
  if c.isUpper then Char.ofNat (c.toNat + 32) else c

/-- Python `str.lower` (ASCII fragment). -/
def asciiLower (s : String) : String :=
  String.mk (s.data.map asciiLowerChar)

/-- Python `str.strip()` (trim whitespace at both ends). -/
def stripStr (s : String) : String :=
  String.mk (((s.data.dropWhile isPySpace).reverse.dropWhile isPySpace).reverse)

/-- Python `re.sub(r"[^\w\s]", '', s)` on the character list: drop every character that is
neither a word character nor whitespace. -/
def stripNonWordSpaceL (l : List Char) : List Char :=
  l.filter (fun c => isWordChar c || isPySpace c)

/-- Python `re.sub(r"\s+", '_', s)` on the character list: collapse each maximal whitespace
run to a single underscore.  The flag records whether the previous character was
whitespace. -/
def collapseWsL : Bool → List Char → List Char
  | _, [] => []
  | inWs, c :: rest =>
    if isPySpace c then
      if inWs then collapseWsL true rest
      else '_' :: collapseWsL true rest
    else c :: collapseWsL false rest

/-- Python `re.sub(r"\s+", '_', s)` as a string function. -/
def wsToUnderscore (s : String) : String :=
  String.mk (collapseWsL false s.data)

/-- Does `needle` occur at the start of `hay`? -/
def startsWithL : List Char → List Char → Bool
  | [], _ => true
  | _ :: _, [] => false
  | a :: as, b :: bs => a == b && startsWithL as bs

/-- Does `needle` occur as a contiguous substring of `hay`?  (Python `in` on `str`.) -/
def subOccursL (needle : List Char) : List Char → Bool
  | [] => startsWithL needle []
  | c :: rest => startsWithL needle (c :: rest) || subOccursL needle rest

/-- Python `needle in hay` for strings. -/
def strIn (needle hay : String) : Bool :=
  subOccursL needle.data hay.data

/-- Numeric value of a list of decimal digit characters (`digitsToNat [] = 0`). -/
def digitsToNat (l : List Char) : Nat :=
  l.foldl (fun a c => a * 10 + (c.toNat - '0'.toNat)) 0

/-- Python `str.lstrip("-+")`: drop every leading `-` or `+`. -/
def lstripSigns (s : String) : String :=
  String.mk (s.data.dropWhile (fun c => c == '-' || c == '+'))

/-- Python `str.isdigit()` (ASCII fragment): non-empty and all decimal digits. -/
def pyIsdigit (s : String) : Bool :=
  !s.data.isEmpty && s.data.all Char.isDigit

/-! ### Python numeric builtins -/

/-- Python `int()` applied to a float: truncation toward zero. -/
def pyTruncF (f : PyFloat) : Int :=
  f.num.tdiv (10 ^ f.exp)

/-- Python `math.floor` of a float (used through float `divmod`/`%`). -/
def pyFloorF (f : PyFloat) : Int :=
  f.num.fdiv (10 ^ f.exp)

/-- Python `x % 1` for a float `x`: the fractional part in `[0, 1)` (floor modulus). -/
def pyMod1 (f : PyFloat) : PyFloat :=
  ⟨f.num - pyFloorF f * 10 ^ f.exp, f.exp⟩

/-- Python `int(s)` for a string: strip whitespace, then an optional single sign
followed by a non-empty run of decimal digits (ASCII model, without underscore
digit separators).  `none` models the `ValueError`. -/
def pyIntOfStr (s : String) : Option Int :=
  let core : List Char → Option Nat := fun l =>
    if !l.isEmpty && l.all Char.isDigit then Option.some (digitsToNat l) else Option.none
  match (stripStr s).data with
  | '-' :: rest => (core rest).map (fun n => -(n : Int))
  | '+' :: rest => (core rest).map (fun n => (n : Int))
  | rest => (core rest).map (fun n => (n : Int))

/-- Python `int(datum)`: succeeds on ints, floats (truncating) and integral strings;
`None` raises `TypeError` (modelled as `none`, the distinction between `ValueError`
and `TypeError` is irrelevant because the source catches both). -/
def pyIntConv : PyVal → Option Int
  | PyVal.none => Option.none
  | PyVal.int n => Option.some n
  | PyVal.float f => Option.some (pyTruncF f)
  | PyVal.str s => pyIntOfStr s

/-- Python `float(s)` for a string: strip whitespace, optional sign, then either
`digits`, `digits.digits`, `digits.` or `.digits` (ASCII model, without exponent
notation or `inf`/`nan`, which do not occur in the data of interest). -/
def pyFloatOfStr (s : String) : Option PyFloat :=
  let unsigned : List Char → Option PyFloat := fun l =>
    let intp := l.takeWhile Char.isDigit
    let rest := l.dropWhile Char.isDigit
    match rest with
    | [] => if intp.isEmpty then Option.none else Option.some ⟨(digitsToNat intp : Int), 0⟩
    | '.' :: frac =>
      if frac.all Char.isDigit && (!intp.isEmpty || !frac.isEmpty) then
        Option.some ⟨(digitsToNat intp * 10 ^ frac.length + digitsToNat frac : Int), frac.length⟩
      else Option.none
    | _ => Option.none
  match (stripStr s).data with
  | '-' :: rest => (unsigned rest).map (fun f => ⟨-f.num, f.exp⟩)
  | '+' :: rest => unsigned rest
  | rest => unsigned rest

/-- Python `float(datum)`: floats and ints convert, strings parse, `None` raises. -/
def pyFloatConv : PyVal → Option PyFloat
  | PyVal.none => Option.none
  | PyVal.int n => Option.some ⟨n, 0⟩
  | PyVal.float f => Option.some f
  | PyVal.str s => pyFloatOfStr s

/-- Python `str()` of a float: integral floats print with a trailing `.0`, other
floats print their decimal expansion with trailing zeros trimmed (the
shortest-round-trip rendering of a decimal float). -/
def pyStrOfFloat (f : PyFloat) : String :=
  let p : Nat := 10 ^ f.exp
  let m : Nat := f.num.natAbs
  let sign := if f.num < 0 then "-" else ""
  let ip := m / p
  let fp := m % p
  if fp = 0 then sign ++ toString ip ++ ".0"
  else
    let digits := toString fp
    let padded := List.replicate (f.exp - digits.length) '0' ++ digits.data
    let trimmed := (padded.reverse.dropWhile (fun c => c == '0')).reverse
    sign ++ toString ip ++ "." ++ String.mk trimmed

/-- Python `str(datum)` for the modelled scalar values. -/
def pyStr : PyVal → String
  | PyVal.none => "None"
  | PyVal.int n => toString n
  | PyVal.float f => pyStrOfFloat f
  | PyVal.str s => s

/-- Python truthiness of a cell value (`not row[i].value`): `None`, `0`, `0.0` and
`""` are falsy, everything else truthy. -/
def pyTruthy : PyVal → Bool
  | PyVal.none => false
  | PyVal.int n => n != 0
  | PyVal.float f => f.num != 0
  | PyVal.str s => s != ""

/-! ### `datetime` model

`datetime.fromordinal`, `datetime.toordinal`, `replace` and `isoformat`, as used by
`conversion.convert`.  Civil-calendar conversion uses the standard proleptic
Gregorian day-count algorithm; ordinal 1 is 0001-01-01, and Python's `datetime`
range is ordinals 1 .. 3652059 (year 9999), outside of which `fromordinal` raises
`ValueError`. -/

/-- Days relative to 1970-01-01 of the proleptic Gregorian date `(y, m, d)`. -/
def daysFromCivil (y m d : Int) : Int :=
  let y' := if m ≤ 2 then y - 1 else y
  let era := (if 0 ≤ y' then y' else y' - 399) / 400
  let yoe := y' - era * 400
  let doy := (153 * (m + (if 2 < m then -3 else 9)) + 2) / 5 + d - 1
  let doe := yoe * 365 + yoe / 4 - yoe / 100 + doy
  era * 146097 + doe - 719468

/-- Inverse of `daysFromCivil`: the `(year, month, day)` of a day count relative
to 1970-01-01. -/
def civilFromDays (z0 : Int) : Int × Int × Int :=
  let z := z0 + 719468
  let era := (if 0 ≤ z then z else z - 146096) / 146097
  let doe := z - era * 146097
  let yoe := (doe - doe / 1460 + doe / 36524 - doe / 146096) / 365
  let y := yoe + era * 400
  let doy := doe - (365 * yoe + yoe / 4 - yoe / 100)
  let mp := (5 * doy + 2) / 153
  let d := doy - (153 * mp + 2) / 5 + 1
  let m := mp + (if mp < 10 then 3 else -9)
  (y + (if m ≤ 2 then 1 else 0), m, d)

/-- A `datetime.datetime` value, at second granularity, with an optional UTC
offset in minutes (`none` models a naive datetime). -/
structure SimpleDT where
  year : Int
  month : Int
  day : Int
  hour : Int
  minute : Int
  second : Int
  tz : Option Int
deriving DecidableEq, Repr

/-- Python `datetime.toordinal()` of a date: days since 0001-01-01, plus one. -/
def pyToordinal (y m d : Int) : Int :=
  daysFromCivil y m d + 719163

/-- Python `datetime.fromordinal(o)`: midnight, naive; raises `ValueError` outside the
supported ordinal range `1 ..= 3652059`. -/
def pyFromordinal (o : Int) : Except PyError SimpleDT :=
  if o < 1 ∨ 3652059 < o then Except.error PyError.valueError
  else
    let c := civilFromDays (o - 719163)
    Except.ok { year := c.1, month := c.2.1, day := c.2.2,
                hour := 0, minute := 0, second := 0, tz := Option.none }

/-- Decimal rendering of `n` left-padded with zeros to `width` digits (with a
leading minus sign for negative values, as Python's `datetime` formatting). -/
def padNum (width : Nat) (n : Int) : String :=
  let s := toString n.natAbs
  let pad := String.mk (List.replicate (width - s.length) '0')
  (if n < 0 then "-" else "") ++ pad ++ s

/-- The `isoformat` UTC-offset suffix: empty for a naive datetime, else
`±HH:MM`. -/
def tzSuffix : Option Int → String
  | Option.none => ""
  | Option.some off =>
    (if off < 0 then "-" else "+") ++
      padNum 2 ((off.natAbs / 60 : Nat) : Int) ++ ":" ++ padNum 2 ((off.natAbs % 60 : Nat) : Int)

/-- Python `datetime.isoformat()` at second granularity. -/
def isoformat (t : SimpleDT) : String :=
  padNum 4 t.year ++ "-" ++ padNum 2 t.month ++ "-" ++ padNum 2 t.day ++ "T" ++
    padNum 2 t.hour ++ ":" ++ padNum 2 t.minute ++ ":" ++ padNum 2 t.second ++ tzSuffix t.tz

/-- The source's timezone default: `if to_return.tzinfo is None ...:
to_return = to_return.replace(tzinfo=pytz.utc)`. -/
def withUTCIfNaive (t : SimpleDT) : SimpleDT :=
  if t.tz = Option.none then { t with tz := Option.some 0 } else t

/-! ### `conversion.py`: the Type Coercer -/

/-- Source `conversion.float_hour_to_time(fh)` (conversion.py lines 38-53):
`hours, hourSeconds = divmod(fh, 1); minutes, seconds = divmod(hourSeconds * 60, 1);
return (int(hours), int(minutes), int(seconds * 60))`.  Python float `divmod(x, 1)`
is `(⌊x⌋, x - ⌊x⌋)`; the quotients are integral floats whose `int()` is themselves,
and the final term is `int()` of the float `seconds * 60`. -/
def float_hour_to_time (fh : PyFloat) : Int × Int × Int :=
  let hours : Int := pyFloorF fh
  let hourSeconds : PyFloat := pyMod1 fh
  let hs60 : PyFloat := ⟨hourSeconds.num * 60, hourSeconds.exp⟩
  let minutes : Int := pyFloorF hs60
  let seconds : PyFloat := pyMod1 hs60
  (hours, minutes, pyTruncF ⟨seconds.num * 60, seconds.exp⟩)

/-- The Excel-serial branch of `convert` (conversion.py lines 88-94):
`dt = datetime.fromordinal(datetime(1900, 1, 1).toordinal() + int(datum) - 2)`
followed by `float_hour_to_time(float(datum) % 1)` and a `replace` of the time
fields.  The `fromordinal` `ValueError` is not caught by the source. -/
def excelSerial (f : PyFloat) : Except PyError SimpleDT :=
  match pyFromordinal (pyToordinal 1900 1 1 + pyTruncF f - 2) with
  | Except.error e => Except.error e
  | Except.ok dt0 =>
    let t := float_hour_to_time (pyMod1 f)
    Except.ok { dt0 with hour := t.1, minute := t.2.1, second := t.2.2 }

/-- The integer rule of `convert` (conversion.py lines 64-71): `int(datum)` must
succeed and `str(datum).lstrip("-+").isdigit()` must hold. -/
def intCoerce (datum : PyVal) : Option Int :=
  match pyIntConv datum with
  | Option.none => Option.none
  | Option.some n => if pyIsdigit (lstripSigns (pyStr datum)) then Option.some n else Option.none

/-- The guarded integer attempt: only tried when `desired_type in (None, 'integer')`. -/
def intBranch (datum : PyVal) (desired : Option String) : Option Int :=
  if desired = Option.none ∨ desired = Option.some "integer" then intCoerce datum else Option.none

/-- The guarded float attempt: only tried when `desired_type in (None, 'number')`. -/
def numBranch (datum : PyVal) (desired : Option String) : Option PyFloat :=
  if desired = Option.none ∨ desired = Option.some "number" then pyFloatConv datum else Option.none

/-- The `date-time` branch of `convert` (conversion.py lines 80-94).
`dateutil.parser.parse` is an external library modelled by the `parse` parameter on
string input; on non-string input it raises `TypeError`, which the source catches
and answers with the Excel-serial fallback for floats.  Returns `some iso` on a
successful date-time, `none` when control falls through to the string fallback,
and an error for the uncaught `ValueError` of `datetime.fromordinal`. -/
def dateBranch (parse : String → Option SimpleDT) (datum : PyVal) :
    Except PyError (Option String) :=
  match datum with
  | PyVal.str s =>
    match parse s with
    | Option.some t => Except.ok (Option.some (isoformat (withUTCIfNaive t)))
    | Option.none => Except.ok Option.none
  | PyVal.float f =>
    match excelSerial f with
    | Except.ok t => Except.ok (Option.some (isoformat (withUTCIfNaive t)))
    | Except.error e => Except.error e
  | _ => Except.ok Option.none

/-- Source `conversion.convert(datum, desired_type)` (conversion.py lines 57-96).
Returns the `(converted_data_point, json_schema_type)` pair; `PyVal.none` with tag
`none` models the Python `None, None` result. -/
def convert (parse : String → Option SimpleDT) (datum : PyVal) (desired : Option String) :
    Except PyError (PyVal × Option String) :=
  if datum = PyVal.none ∨ datum = PyVal.str "" then Except.ok (PyVal.none, Option.none)
  else
    match intBranch datum desired with
    | Option.some n => Except.ok (PyVal.int n, Option.some "integer")
    | Option.none =>
      match numBranch datum desired with
      | Option.some q => Except.ok (PyVal.float q, Option.some "number")
      | Option.none =>
        if desired = Option.some "date-time" then
          match dateBranch parse datum with
          | Except.ok (Option.some iso) => Except.ok (PyVal.str iso, Option.some "date-time")
          | Except.ok Option.none => Except.ok (PyVal.str (pyStr datum), Option.some "string")
          | Except.error e => Except.error e
        else Except.ok (PyVal.str (pyStr datum), Option.some "string")

/-! ### Python dict model

Python dicts are modelled as association lists in insertion order, with
overwrite-on-insert (`dictSet`) and first-match lookup (`dictFind`); with
`dictSet` as the only constructor the keys are distinct and lookup order is
irrelevant, exactly as for a dict. -/

/-- Python `m[k] = v` on a dict: overwrite the existing binding or append a new one. -/
def dictSet {α : Type} : List (String × α) → String → α → List (String × α)
  | [], k, v => [(k, v)]
  | (k', v') :: rest, k, v =>
    if k' = k then (k, v) :: rest else (k', v') :: dictSet rest k v

/-- Python `m.get(k)` on a dict: the first binding for `k`, if any. -/
def dictFind {α : Type} : List (String × α) → String → Option α
  | [], _ => Option.none
  | (k', v') :: rest, k => if k' = k then Option.some v' else dictFind rest k

/-- Python `m.get(k, d)` on a dict. -/
def dictGetD {α : Type} (m : List (String × α)) (k : String) (d : α) : α :=
  (dictFind m k).getD d

/-! ### `excel_handler.py`: header formatting, column selection, row filtering

A spreadsheet row is a list of cell values (`cell.value` in the source); openpyxl
cells carry strings, numbers or `None`, all covered by `PyVal`. -/

/-- Source `excel_handler.get_header_map(header_row)` (excel_handler.py lines 8-17):
map each header name, lowercased (with the `"ColumnX"` fallback when the cell
does not contain a string), to its index. -/
def get_header_map (header_row : List PyVal) : List (String × Nat) :=
  header_row.enum.foldl
    (fun m p =>
      let header_val := match p.2 with
        | PyVal.str s => s
        | _ => "Column" ++ toString (p.1 + 1)
      dictSet m (asciiLower header_val) p.1)
    []

/-- Python `re.match(r"^column(\d+)$", s)`: the numeral when `s` is `column` followed by
one or more digits. -/
def matchColumnNum (s : String) : Option Nat :=
  match s.data with
  | 'c' :: 'o' :: 'l' :: 'u' :: 'm' :: 'n' :: rest =>
    if !rest.isEmpty && rest.all Char.isDigit then Option.some (digitsToNat rest)
    else Option.none
  | _ => Option.none

/-- Source `excel_handler.get_filter_column_indices(filtered_columns, header_row)`
(excel_handler.py lines 19-46): resolve each configured name to a column index by
direct lowercased-stripped lookup in the header map, else by the `columnX`
pattern (bounds-checked against the header length; note `int(X) - 1` is a Python
int, so `column0` resolves to index `-1`, a Python negative index); unresolved
names are ignored. -/
def get_filter_column_indices (filtered_columns : List String) (header_row : List PyVal) :
    List Int :=
  let header_map := get_header_map header_row
  filtered_columns.foldl
    (fun acc col =>
      let col_lower := stripStr (asciiLower col)
      match dictFind header_map col_lower with
      | Option.some idx => acc ++ [(idx : Int)]
      | Option.none =>
        match matchColumnNum col_lower with
        | Option.some n =>
          let col_index : Int := (n : Int) - 1
          if col_index < (header_row.length : Int) then acc ++ [col_index] else acc
        | Option.none => acc)
    []

/-- Python sequence indexing `row[i]` with negative-index wrapping (total model;
out-of-range access, which raises `IndexError` in Python, is not exercised when
data rows are as wide as the header row). -/
def pyGetCell (row : List PyVal) (i : Int) : PyVal :=
  if 0 ≤ i then row.getD i.toNat PyVal.none
  else row.getD (row.length - (-i).toNat) PyVal.none

/-- The per-row filter decision of `generator_wrapper` (excel_handler.py lines
136-142): with a non-empty `filtered_columns` list the row is skipped when
`all(not row[i].value for i in filter_column_indices)`. -/
def row_kept (filtered_columns : List String) (header_row row : List PyVal) : Bool :=
  if filtered_columns.isEmpty then true
  else
    let filter_column_indices := get_filter_column_indices filtered_columns header_row
    !(filter_column_indices.all (fun i => !pyTruthy (pyGetCell row i)))

/-- Source `excel_handler.format_header(header_cell, index, encapsulate_with_brackets)`
(excel_handler.py lines 48-66): a non-string cell gets the synthetic name
`Column<index+1>`; with the flag the name is bracketed unchanged, otherwise
non-word non-space characters are stripped, whitespace runs become underscores,
and the result is lowercased. -/
def format_header (header_cell : PyVal) (index : Nat) (encapsulate_with_brackets : Bool) :
    String :=
  let formatted_key := match header_cell with
    | PyVal.str s => s
    | _ => "Column" ++ toString (index + 1)
  if encapsulate_with_brackets then "[" ++ formatted_key ++ "]"
  else asciiLower (String.mk (collapseWsL false (stripNonWordSpaceL formatted_key.data)))

/-- Source `excel_handler.should_include_column` (excel_handler.py lines 68-82): with a
non-empty include-list, emit on an exact (case-sensitive) match of the raw header
value, else on any include-entry (lowercased) being a substring of the normalized
(lowercased for strings, whitespace-to-underscore) header or `Column<index+1>`
fallback. -/
def should_include_column (header_cell : PyVal) (index : Nat)
    (included_columns included_columns_lower : List String) : Bool :=
  if !included_columns.isEmpty then
    match header_cell with
    | PyVal.str s =>
      if included_columns.contains s then true
      else
        let formatted_key := wsToUnderscore (asciiLower s)
        included_columns_lower.any (fun inc => strIn inc formatted_key)
    | _ =>
      let formatted_key := wsToUnderscore ("Column" ++ toString (index + 1))
      included_columns_lower.any (fun inc => strIn inc formatted_key)
  else true

/-- Source `excel_handler.should_exclude_column` (excel_handler.py lines 84-95): drop
when the normalized header (lowercased, whitespace-to-underscore; `column<index+1>`
for non-strings) or the `column<index+1>` alias is among the excluded keys. -/
def should_exclude_column (header_cell : PyVal) (index : Nat)
    (excluded_columns_lower : List String) : Bool :=
  let formatted_key := match header_cell with
    | PyVal.str s => wsToUnderscore (asciiLower s)
    | _ => "column" ++ toString (index + 1)
  let column_index_key := "column" ++ toString (index + 1)
  if excluded_columns_lower.contains formatted_key
      || excluded_columns_lower.contains column_index_key then true
  else false

/-- The per-column emit decision of `generator_wrapper` (excel_handler.py lines
107-113 and 156-163): `excluded_columns = [] if excluded_columns is None or
included_columns else excluded_columns`, then the include check when the
include-list is non-empty, else the exclude check when the exclude-list is
non-empty, else emit. -/
def should_emit (header_cell : PyVal) (index : Nat)
    (includedOpt excludedOpt : Option (List String)) : Bool :=
  let excluded_columns := match excludedOpt with
    | Option.none => []
    | Option.some e => if (includedOpt.getD []).isEmpty then e else []
  let included_columns := includedOpt.getD []
  let included_columns_lower := included_columns.map asciiLower
  let excluded_columns_lower := excluded_columns.map (fun c => wsToUnderscore (asciiLower c))
  if !included_columns.isEmpty then
    should_include_column header_cell index included_columns included_columns_lower
  else if !excluded_columns.isEmpty then
    !should_exclude_column header_cell index excluded_columns_lower
  else true

/-- The final key cleanup of `generator_wrapper` (excel_handler.py line 166):
`re.sub(r"[^\w\s]", '', formatted_key).replace(' ', '_')`. -/
def finalizeKey (k : String) : String :=
  String.mk ((stripNonWordSpaceL k.data).map (fun c => if c = ' ' then '_' else c))

/-- The canonical key emitted for one cell of a data row by `generator_wrapper`
(excel_handler.py lines 151-171): `format_header`, the final cleanup, then the
rename mapping looked up by lowercased key. -/
def emittedKey (header_cell : PyVal) (index : Nat) (encapsulate_with_brackets : Bool)
    (rename_mapping : List (String × String)) : String :=
  let formatted_key := finalizeKey (format_header header_cell index encapsulate_with_brackets)
  match dictFind rename_mapping (asciiLower formatted_key) with
  | Option.some r => r
  | Option.none => formatted_key

/-- The canonical keys of a data row under a given header row: one key per cell
position (no column selection, no renaming beyond `rename_mapping`). -/
def row_keys (header_row : List PyVal) (encapsulate_with_brackets : Bool)
    (rename_mapping : List (String × String)) : List String :=
  header_row.enum.map (fun p => emittedKey p.2 p.1 encapsulate_with_brackets rename_mapping)

/-! ### `conversion.py`: row conversion and schema inference -/

/-- A JSON-schema type declaration as held in a field descriptor's `type` slot:
either a bare string or a list of type names.  `conversion.coerce` mutates the
list form in place. -/
inductive TypeDecl
  | single (s : String)
  | ofList (l : List String)
deriving DecidableEq, Repr

/-- Source `conversion.coerce(datum, declared_types)` (conversion.py lines 24-35), in
state-passing form: the returned `TypeDecl` is the caller's `declared_types`
after the in-place `declared_types.remove("null")`.  For a list declaration the
first remaining entry is the desired type (`declared_types[0]` raises
`IndexError` when the list is exhausted). -/
def coerce (parse : String → Option SimpleDT) (datum : PyVal) (declared_types : TypeDecl) :
    Except PyError (PyVal × TypeDecl) :=
  if datum = PyVal.none ∨ datum = PyVal.str "" then Except.ok (PyVal.none, declared_types)
  else
    match declared_types with
    | TypeDecl.single s =>
      match convert parse datum (Option.some s) with
      | Except.ok (v, _) => Except.ok (v, TypeDecl.single s)
      | Except.error e => Except.error e
    | TypeDecl.ofList l =>
      let l' := if l.contains "null" then l.erase "null" else l
      match l'.head? with
      | Option.none => Except.error PyError.indexError
      | Option.some desired_type =>
        match convert parse datum (Option.some desired_type) with
        | Except.ok (v, _) => Except.ok (v, TypeDecl.ofList l')
        | Except.error e => Except.error e

/-- Source `conversion.convert_row(row, schema)` (conversion.py lines 9-22), in
state-passing form over `schema['properties']`: each field's declared types come
from the schema (default `['string', 'null']` for unknown keys), and the schema
binding is updated with the list object that `coerce` may have mutated. -/
def convert_row (parse : String → Option SimpleDT) :
    List (String × PyVal) → List (String × TypeDecl) →
    Except PyError (List (String × PyVal) × List (String × TypeDecl))
  | [], properties => Except.ok ([], properties)
  | (key, value) :: rest, properties =>
    let declared_types := match dictFind properties key with
      | Option.some d => d
      | Option.none => TypeDecl.ofList ["string", "null"]
    match coerce parse value declared_types with
    | Except.error e => Except.error e
    | Except.ok (coerced, declared') =>
      let properties' := match dictFind properties key with
        | Option.some _ => dictSet properties key declared'
        | Option.none => properties
      match convert_row parse rest properties' with
      | Except.error e => Except.error e
      | Except.ok (out, properties'') => Except.ok ((key, coerced) :: out, properties'')

/-- Source `conversion.count_sample(sample, start)` (conversion.py lines 99-111): ensure
a histogram exists per key, run `convert(value)` with no desired type, and count
each non-null type tag.  (With no desired type `convert` never consults the
date parser, so the parser argument is threaded through unchanged.) -/
def count_sample (parse : String → Option SimpleDT) (sample : List (String × PyVal))
    (start : List (String × List (String × Nat))) : List (String × List (String × Nat)) :=
  sample.foldl
    (fun st kv =>
      let st := if (dictFind st kv.1).isSome then st else dictSet st kv.1 []
      match convert parse kv.2 Option.none with
      | Except.ok (_, Option.some datatype) =>
        let h := dictGetD st kv.1 []
        dictSet st kv.1 (dictSet h datatype (dictGetD h datatype 0 + 1))
      | _ => st)
    start

/-- Source `conversion.count_samples(samples)` (conversion.py lines 114-120). -/
def count_samples (parse : String → Option SimpleDT)
    (samples : List (List (String × PyVal))) : List (String × List (String × Nat)) :=
  samples.foldl (fun acc s => count_sample parse s acc) []

/-- Source `conversion.pick_datatype(counts, prefer_number_vs_integer)` (conversion.py
lines 123-152): the Type Resolver over one column's histogram.  Both warning-only
branches of the source leave the default `'string'` in place. -/
def pick_datatype (counts : List (String × Nat)) (prefer_number_vs_integer : Bool) : String :=
  if counts.length = 1 then
    if 0 < dictGetD counts "integer" 0 then
      if prefer_number_vs_integer then "number" else "integer"
    else if 0 < dictGetD counts "number" 0 then "number"
    else if 0 < dictGetD counts "date-time" 0 then "date-time"
    else "string"
  else if counts.length = 2 ∧ 0 < dictGetD counts "integer" 0
      ∧ 0 < dictGetD counts "number" 0 then
    "number"
  else "string"

/-- One inferred field descriptor of the generated schema: the `type` list and
the optional `format`. -/
structure SchemaEntry where
  type : List String
  format : Option String
deriving DecidableEq, Repr

/-- Source `conversion.generate_schema(samples, prefer_number_vs_integer)` (conversion.py
lines 155-174): histogram per column, resolve, and emit
`{type: [null, string], format: date-time}` for date-times, else
`{type: [null, datatype]}`. -/
def generate_schema (parse : String → Option SimpleDT)
    (samples : List (List (String × PyVal))) (prefer_number_vs_integer : Bool) :
    List (String × SchemaEntry) :=
  (count_samples parse samples).foldl
    (fun out p =>
      let datatype := pick_datatype p.2 prefer_number_vs_integer
      if datatype = "date-time" then
        dictSet out p.1 ⟨["null", "string"], Option.some "date-time"⟩
      else dictSet out p.1 ⟨["null", datatype], Option.none⟩)
    []

/-! ### `__init__.py`: the discover pass

`discover` (lines 70-119) loops over the configured tables; for each one a
`try` block parses the start date, lists matching objects, samples files
(external collaborators, modelled by `ExternalOps`), and then calls
`conversion.generate_schema(samples, prefer_number_vs_integer=...,
prefer_schema_as_string=...)`.  Python raises `TypeError` for a keyword argument
that is not in the callee's parameter list; the `except Exception` handler logs
and skips the stream. -/

/-- The parameter names of `conversion.generate_schema` (conversion.py line 155). -/
def generate_schema_params : List String :=
  ["samples", "prefer_number_vs_integer"]

/-- The keyword-argument names passed at the `discover` call site
(`__init__.py` line 89). -/
def discover_call_kwargs : List String :=
  ["prefer_number_vs_integer", "prefer_schema_as_string"]

/-- Python keyword-call admissibility: every keyword argument must name a
parameter of the callee, otherwise the call raises `TypeError`. -/
def pyKwargsAccepted (params kwargs : List String) : Bool :=
  kwargs.all params.contains

/-- The keyword call `generate_schema(samples, **kwargs)`: `TypeError` when a
keyword is not accepted, the function's result otherwise. -/
def generate_schema_kwcall (parse : String → Option SimpleDT) (kwargs : List String)
    (samples : List (List (String × PyVal))) (prefer : Bool) :
    Except PyError (List (String × SchemaEntry)) :=
  if pyKwargsAccepted generate_schema_params kwargs then
    Except.ok (generate_schema parse samples prefer)
  else Except.error PyError.typeError

/-- The external collaborators consumed by `discover`, free to succeed with any
value or raise: `dateutil.parser.parse(table_spec['start_date'])`,
`file_utils.get_matching_objects` and `file_utils.sample_files`, plus the
date parser used during sampling. -/
structure ExternalOps where
  parse_start_date : String → Except PyError Unit
  get_matching_objects : String → Except PyError Unit
  sample_files : String → Except PyError (List (List (String × PyVal)))
  dateutil_parse : String → Option SimpleDT

/-- A catalog entry as far as the schema-build step is concerned: the stream id
and its inferred data schema. -/
structure CatalogEntryM where
  tap_stream_id : String
  schema : List (String × SchemaEntry)
deriving DecidableEq, Repr

/-- The body of `discover`'s per-table `try` block up to the construction of the
catalog entry (`__init__.py` lines 73-115). -/
def discover_stream (ops : ExternalOps) (name : String) (prefer : Bool) :
    Except PyError CatalogEntryM :=
  match ops.parse_start_date name with
  | Except.error e => Except.error e
  | Except.ok _ =>
    match ops.get_matching_objects name with
    | Except.error e => Except.error e
    | Except.ok _ =>
      match ops.sample_files name with
      | Except.error e => Except.error e
      | Except.ok samples =>
        match generate_schema_kwcall ops.dateutil_parse discover_call_kwargs samples prefer with
        | Except.error e => Except.error e
        | Except.ok data_schema => Except.ok ⟨name, data_schema⟩

/-- Source `discover(config)` (`__init__.py` lines 70-119): every table whose `try`
block raises is skipped by the `except Exception` handler; the others become
catalog entries.  A table is its stream name and `prefer_number_vs_integer`
flag. -/
def discover (ops : ExternalOps) (tables : List (String × Bool)) : List CatalogEntryM :=
  tables.foldr
    (fun t acc =>
      match discover_stream ops t.1 t.2 with
      | Except.ok entry => entry :: acc
      | Except.error _ => acc)
    []

/-! ## Supporting lemmas -/

lemma isWordChar_not_space (c : Char) (h : isWordChar c = true) : isPySpace c = false := by
  by_contra hne
  have hs : isPySpace c = true := by
    cases hps : isPySpace c
    · exact absurd hps hne
    · rfl
  unfold isPySpace at hs
  simp only [Bool.or_eq_true, beq_iff_eq] at hs
  rcases hs with ((((rfl | rfl) | rfl) | rfl) | rfl) | rfl <;> exact absurd h (by decide)

lemma asciiLowerChar_eq_self (c : Char) (h : c.isUpper = false) : asciiLowerChar c = c := by
  simp [asciiLowerChar, h]

lemma isDigit_isWordChar (c : Char) (h : c.isDigit = true) : isWordChar c = true := by
  simp [isWordChar, Char.isAlphanum, h]

lemma isDigit_not_upper (c : Char) (h : c.isDigit = true) : c.isUpper = false := by
  simp only [Char.isDigit, Bool.and_eq_true, decide_eq_true_eq] at h
  by_contra hne
  have hu : c.isUpper = true := by
    cases hup : c.isUpper
    · exact absurd hup hne
    · rfl
  simp only [Char.isUpper, Bool.and_eq_true, decide_eq_true_eq] at hu
  have h1 : c.val.toNat ≤ 57 := h.2
  have h2 : 65 ≤ c.val.toNat := hu.1
  omega

lemma digitChar_isDigit (n : Nat) (h : n < 10) : (Nat.digitChar n).isDigit = true := by
  interval_cases n <;> decide

lemma toDigitsCore_digits (f : Nat) :
    ∀ (n : Nat) (l : List Char), (∀ c ∈ l, c.isDigit = true) →
      ∀ c ∈ Nat.toDigitsCore 10 f n l, c.isDigit = true := by
  induction f with
  | zero =>
    intro n l hl c hc
    exact hl c hc
  | succ f ih =>
    intro n l hl c hc
    have hd : (Nat.digitChar (n % 10)).isDigit = true :=
      digitChar_isDigit _ (Nat.mod_lt _ (by decide))
    have hdl : ∀ c ∈ Nat.digitChar (n % 10) :: l, c.isDigit = true := by
      intro c' hc'
      rcases List.mem_cons.mp hc' with rfl | hmem
      · exact hd
      · exact hl c' hmem
    simp only [Nat.toDigitsCore] at hc
    by_cases h0 : n / 10 = 0
    · rw [if_pos h0] at hc
      exact hdl c hc
    · rw [if_neg h0] at hc
      exact ih (n / 10) _ hdl c hc

/-- Every character of the decimal rendering of a natural number is a digit. -/
lemma natRepr_digits (n : Nat) : ∀ c ∈ (toString n).data, c.isDigit = true := by
  intro c hc
  have heq : (toString n).data = Nat.toDigitsCore 10 (n + 1) n [] := by
    simp [toString, Nat.repr, Nat.toDigits, List.asString]
  rw [heq] at hc
  exact toDigitsCore_digits (n + 1) n [] (by intro c' hc'; cases hc') c hc

lemma stripNonWordSpaceL_id (l : List Char) (h : ∀ c ∈ l, isWordChar c = true) :
    stripNonWordSpaceL l = l := by
  unfold stripNonWordSpaceL
  rw [List.filter_eq_self]
  intro c hc
  simp [h c hc]

lemma collapseWsL_id (l : List Char) (h : ∀ c ∈ l, isPySpace c = false) :
    collapseWsL false l = l := by
  induction l with
  | nil => rfl
  | cons c rest ih =>
    have hc := h c (List.mem_cons_self c rest)
    simp only [collapseWsL, hc]
    simp [ih (fun c' hc' => h c' (List.mem_cons_of_mem c hc'))]

lemma lowerMap_id (l : List Char) (h : ∀ c ∈ l, c.isUpper = false) :
    l.map asciiLowerChar = l := by
  induction l with
  | nil => rfl
  | cons c rest ih =>
    simp only [List.map_cons]
    rw [asciiLowerChar_eq_self c (h c (List.mem_cons_self c rest)),
      ih (fun c' hc' => h c' (List.mem_cons_of_mem c hc'))]

/-- The cleanup pass of `format_header` maps the synthetic name `Column<n>` to
`column<n>`: every character is a word character, there is no whitespace, and
lowercasing only affects the leading `C`. -/
lemma clean_column (i : Nat) :
    asciiLower (String.mk (collapseWsL false
        (stripNonWordSpaceL ("Column" ++ toString (i + 1)).data)))
      = "column" ++ toString (i + 1) := by
  have hdig := natRepr_digits (i + 1)
  have hdata : ("Column" ++ toString (i + 1)).data
      = "Column".data ++ (toString (i + 1)).data := rfl
  rw [hdata]
  have hword : ∀ c ∈ "Column".data ++ (toString (i + 1)).data, isWordChar c = true := by
    intro c hc
    rcases List.mem_append.mp hc with hc | hc
    · have hc' : c ∈ ['C', 'o', 'l', 'u', 'm', 'n'] := by simpa using hc
      fin_cases hc' <;> decide
    · exact isDigit_isWordChar c (hdig c hc)
  rw [stripNonWordSpaceL_id _ hword,
    collapseWsL_id _ (fun c hc => isWordChar_not_space c (hword c hc))]
  unfold asciiLower
  show String.mk (("Column".data ++ (toString (i + 1)).data).map asciiLowerChar) = _
  rw [List.map_append]
  rw [show "Column".data.map asciiLowerChar = "column".data from by decide]
  rw [lowerMap_id _ (fun c hc => isDigit_not_upper c (hdig c hc))]
  rfl

/-- Applying `format_header` to a non-string header cell yields the cleaned synthetic
name `column<index+1>`. -/
lemma format_header_nonstring (v : PyVal) (i : Nat) (hv : ∀ s, v ≠ PyVal.str s) :
    format_header v i false = "column" ++ toString (i + 1) := by
  cases v with
  | str s => exact absurd rfl (hv s)
  | none => exact clean_column i
  | int n => exact clean_column i
  | float f => exact clean_column i

/-! ## Claims -/

/-- C1.  The source's Excel-serial fallback at `coerce(44197.5, "date-time")`
(`44197.5 = 441975 / 10`): the date part resolves to 2021-01-01 under the
1899-12-30 epoch, but the time of day comes out as 00:30:00 — the code passes the
raw day fraction `datum % 1` to `float_hour_to_time`, whose parameter is
documented as float *hours*, so the claimed 12:00:00 (`frac * 24` hours) is not
what the code computes. -/
theorem claim1_excel_serial_at_44197_5 :
    convert (fun _ => Option.none) (PyVal.float ⟨441975, 1⟩) (Option.some "date-time") =
      Except.ok (PyVal.str "2021-01-01T00:30:00+00:00", Option.some "date-time") := by
  decide

/-- C2 counterexample.  A filter list whose only entry resolves to no column
(`"nosuchcolumn"` is not in the header and does not match `columnX`) makes
`all(...)` vacuously true, so a row with a non-empty value is dropped — the
claim says all rows are kept in this case. -/
theorem claim2_vacuous_filter_counterexample :
    get_filter_column_indices ["nosuchcolumn"] [PyVal.str "a"] = [] ∧
    row_kept ["nosuchcolumn"] [PyVal.str "a"] [PyVal.str "x"] = false := by
  decide

/-- C2 amended.  With a non-empty `filtered_columns` list, a data row is dropped
exactly when every resolved filter-column index holds a falsy value — in
particular, when the filter list resolves to zero valid indices the condition is
vacuously true and every data row is dropped. -/
theorem claim2_row_drop_iff (filtered : List String) (header row : List PyVal)
    (hne : filtered ≠ []) :
    row_kept filtered header row = false ↔
      ∀ i ∈ get_filter_column_indices filtered header, pyTruthy (pyGetCell row i) = false := by
  have hie : filtered.isEmpty = false := by
    cases filtered with
    | nil => exact absurd rfl hne
    | cons a t => rfl
  unfold row_kept
  rw [hie]
  simp [List.all_eq_true]

/-- C2 witness: a concrete run of `claim2_row_drop_iff` — the single filter
column resolves to index 0, whose value is empty, so the row is dropped. -/
theorem claim2_row_drop_iff_witness :
    row_kept ["a"] [PyVal.str "a"] [PyVal.str ""] = false :=
  (claim2_row_drop_iff ["a"] [PyVal.str "a"] [PyVal.str ""] (by decide)).mpr (by decide)

/-- C3 counterexample.  An empty-string header cell *is* a string, so
`format_header` keeps it (cleaned to `""`) instead of synthesizing `Column1`;
the header row `["", "Name"]` therefore produces keys `["", "name"]`, not
`["column1", "name"]`. -/
theorem claim3_empty_header_counterexample :
    format_header (PyVal.str "") 0 false = "" ∧
    format_header (PyVal.str "") 0 false ≠ "column1" ∧
    row_keys [PyVal.str "", PyVal.str "Name"] false [] = ["", "name"] ∧
    row_keys [PyVal.str "", PyVal.str "Name"] false [] ≠ ["column1", "name"] := by
  decide

/-- C3 amended.  The Header Formatter synthesizes `Column<index+1>` (lowercased
to `column<index+1>` by the cleanup pass) exactly for header cells whose raw
value is not a string; an empty-string header is kept as the empty key, so the
header row `["", "Name"]` yields the canonical keys `["", "name"]`. -/
theorem claim3_header_synthesis_amended :
    (∀ v i, (∀ s, v ≠ PyVal.str s) → format_header v i false = "column" ++ toString (i + 1)) ∧
    row_keys [PyVal.str "", PyVal.str "Name"] false [] = ["", "name"] :=
  ⟨fun v i hv => format_header_nonstring v i hv, by decide⟩

/-- C3 witness: the synthesis rule of `claim3_header_synthesis_amended` at a
`None` header cell in position 0. -/
theorem claim3_header_synthesis_amended_witness :
    format_header PyVal.none 0 false = "column" ++ toString (0 + 1) :=
  claim3_header_synthesis_amended.1 PyVal.none 0 (fun _ h => PyVal.noConfusion h)

/-- C9.  Header formatting (with the encapsulate flag unset) is idempotent: a
name that is already canonical — only word characters, no whitespace, no
uppercase — is returned unchanged. -/
theorem claim9_format_header_idempotent (s : String) (i : Nat)
    (h : ∀ c ∈ s.data, isWordChar c = true ∧ c.isUpper = false) :
    format_header (PyVal.str s) i false = s := by
  show asciiLower (String.mk (collapseWsL false (stripNonWordSpaceL s.data))) = s
  rw [stripNonWordSpaceL_id _ (fun c hc => (h c hc).1),
    collapseWsL_id _ (fun c hc => isWordChar_not_space c (h c hc).1)]
  unfold asciiLower
  show String.mk (s.data.map asciiLowerChar) = s
  rw [lowerMap_id _ (fun c hc => (h c hc).2)]

/-- C9 witness: `claim9_format_header_idempotent` at the canonical name
`total_amount2`. -/
theorem claim9_format_header_idempotent_witness :
    format_header (PyVal.str "total_amount2") 0 false = "total_amount2" :=
  claim9_format_header_idempotent "total_amount2" 0 (by decide)

/-- C8.  When the include-list is non-empty (Python truthiness of
`included_columns`), the per-column emit decision is the same for any two values
of `excluded_columns`: the exclude-list is first reset to `[]` and the
exclude branch is never reached. -/
theorem claim8_exclude_independence (v : PyVal) (i : Nat) (inc : Option (List String))
    (h : (inc.getD []).isEmpty = false) (e₁ e₂ : Option (List String)) :
    should_emit v i inc e₁ = should_emit v i inc e₂ := by
  simp [should_emit, h]

/-- C8 witness: `claim8_exclude_independence` with include-list `["name"]`
against the exclude-lists `["name"]` and absent. -/
theorem claim8_exclude_independence_witness :
    should_emit (PyVal.str "Name") 0 (Option.some ["name"]) (Option.some ["name"]) =
      should_emit (PyVal.str "Name") 0 (Option.some ["name"]) Option.none :=
  claim8_exclude_independence (PyVal.str "Name") 0 (Option.some ["name"]) (by decide)
    (Option.some ["name"]) Option.none

lemma dictGetD_pos_mem (m : List (String × Nat)) (k : String) (h : 0 < dictGetD m k 0) :
    k ∈ m.map Prod.fst := by
  induction m with
  | nil => simp [dictGetD, dictFind] at h
  | cons p rest ih =>
    cases p with
    | mk k' v' =>
      by_cases hk : k' = k
      · simp [hk]
      · unfold dictGetD dictFind at h
        rw [if_neg hk] at h
        exact List.mem_cons_of_mem _ (ih h)

lemma mem_dictGetD_pos (m : List (String × Nat)) (k : String)
    (hpos : ∀ p ∈ m, 0 < p.2) (h : k ∈ m.map Prod.fst) : 0 < dictGetD m k 0 := by
  induction m with
  | nil => cases h
  | cons p rest ih =>
    cases p with
    | mk k' v' =>
      by_cases hk : k' = k
      · unfold dictGetD dictFind
        rw [if_pos hk]
        exact hpos (k', v') (List.mem_cons_self _ _)
      · unfold dictGetD dictFind
        rw [if_neg hk]
        rw [List.map_cons] at h
        rcases List.mem_cons.mp h with hc | hc
        · exact absurd hc.symm hk
        · exact ih (fun p hp => hpos p (List.mem_cons_of_mem _ hp)) hc

/-- C5.  The Type Resolver over a histogram of positive tag counts: a lone
`integer` tag resolves to `integer` (or `number` under the preference flag), a
lone `number`/`date-time` tag to itself, any other lone tag — including
`string` — and the empty histogram to `string`; exactly the pair
`{integer, number}` gives `number`, and every other combination gives
`string`. -/
theorem claim5_pick_datatype_resolution (counts : List (String × Nat)) (prefer : Bool)
    (hpos : ∀ p ∈ counts, 0 < p.2) :
    (∀ n, counts = [("integer", n)] →
      pick_datatype counts prefer = if prefer then "number" else "integer") ∧
    (∀ n, counts = [("number", n)] → pick_datatype counts prefer = "number") ∧
    (∀ n, counts = [("date-time", n)] → pick_datatype counts prefer = "date-time") ∧
    (∀ t n, counts = [(t, n)] → t ≠ "integer" → t ≠ "number" → t ≠ "date-time" →
      pick_datatype counts prefer = "string") ∧
    (counts = [] → pick_datatype counts prefer = "string") ∧
    (counts.length = 2 → "integer" ∈ counts.map Prod.fst → "number" ∈ counts.map Prod.fst →
      pick_datatype counts prefer = "number") ∧
    (counts.length ≠ 1 →
      ¬(counts.length = 2 ∧ "integer" ∈ counts.map Prod.fst ∧ "number" ∈ counts.map Prod.fst) →
      pick_datatype counts prefer = "string") := by
  refine ⟨?_, ?_, ?_, ?_, ?_, ?_, ?_⟩
  · rintro n rfl
    have hn : 0 < n := hpos ("integer", n) (by simp)
    simp [pick_datatype, dictGetD, dictFind, hn]
  · rintro n rfl
    have hn : 0 < n := hpos ("number", n) (by simp)
    simp [pick_datatype, dictGetD, dictFind, hn]
  · rintro n rfl
    have hn : 0 < n := hpos ("date-time", n) (by simp)
    simp [pick_datatype, dictGetD, dictFind, hn]
  · rintro t n rfl hti htn htd
    simp [pick_datatype, dictGetD, dictFind, hti, htn, htd]
  · rintro rfl
    simp [pick_datatype]
  · intro hlen hi hn
    unfold pick_datatype
    rw [if_neg (by omega), if_pos ⟨hlen, mem_dictGetD_pos counts "integer" hpos hi,
      mem_dictGetD_pos counts "number" hpos hn⟩]
  · intro h1 h2
    unfold pick_datatype
    rw [if_neg h1, if_neg (fun hc => h2 ⟨hc.1, dictGetD_pos_mem counts "integer" hc.2.1,
      dictGetD_pos_mem counts "number" hc.2.2⟩)]

/-- C5 witness: `claim5_pick_datatype_resolution` at the histogram
`{integer: 2}` without the preference flag. -/
theorem claim5_pick_datatype_resolution_witness :
    pick_datatype [("integer", 2)] false = "integer" := by
  have h := (claim5_pick_datatype_resolution [("integer", 2)] false (by decide)).1 2 rfl
  simpa using h

lemma intBranch_isSome_iff (d : PyVal) (dt : Option String) :
    (intBranch d dt).isSome = true ↔
      ((dt = Option.none ∨ dt = Option.some "integer") ∧ (pyIntConv d).isSome = true ∧
        pyIsdigit (lstripSigns (pyStr d)) = true) := by
  unfold intBranch intCoerce
  split
  · rename_i hcond
    cases hic : pyIntConv d with
    | none => simp [hic]
    | some n =>
      by_cases hd : pyIsdigit (lstripSigns (pyStr d)) = true
      · simp [hic, hd, hcond]
      · simp [hic, hd, hcond]
  · rename_i hcond
    simp [hcond]

lemma convert_tag_integer_iff (parse : String → Option SimpleDT) (d : PyVal) (dt : Option String) :
    (∃ v, convert parse d dt = Except.ok (v, Option.some "integer")) ↔
      (intBranch d dt).isSome = true := by
  unfold convert
  by_cases h0 : d = PyVal.none ∨ d = PyVal.str ""
  · rw [if_pos h0]
    have hib : intBranch d dt = Option.none := by
      rcases h0 with rfl | rfl <;> unfold intBranch <;> split <;> rfl
    simp [hib]
  · rw [if_neg h0]
    cases h1 : intBranch d dt with
    | some n => simp
    | none =>
      cases h2 : numBranch d dt with
      | some q => simp
      | none =>
        by_cases h3 : dt = Option.some "date-time"
        · rw [if_pos h3]
          cases h4 : dateBranch parse d with
          | ok o => cases o <;> simp
          | error e => simp
        · rw [if_neg h3]
          simp

lemma intBranch_some_desired {d : PyVal} {dt : Option String} {n : Int}
    (h : intBranch d dt = Option.some n) :
    dt = Option.none ∨ dt = Option.some "integer" := by
  unfold intBranch at h
  split at h
  · assumption
  · cases h

lemma numBranch_some_desired {d : PyVal} {dt : Option String} {f : PyFloat}
    (h : numBranch d dt = Option.some f) :
    dt = Option.none ∨ dt = Option.some "number" := by
  unfold numBranch at h
  split at h
  · assumption
  · cases h

lemma pyFromordinal_error_iff (o : Int) :
    (∃ e, pyFromordinal o = Except.error e) ↔ (o < 1 ∨ 3652059 < o) := by
  unfold pyFromordinal
  split
  · rename_i h
    simp [h]
  · rename_i h
    simp [h]

/-- On which inputs `convert` raises: exactly for desired type `date-time`, a
float datum, and an Excel ordinal outside the `datetime` range, where the
`fromordinal` `ValueError` escapes the `except` clause. -/
lemma convert_error_iff (parse : String → Option SimpleDT) (d : PyVal) (dt : Option String) :
    (∃ e, convert parse d dt = Except.error e) ↔
      (dt = Option.some "date-time" ∧ ∃ f, d = PyVal.float f ∧
        (pyToordinal 1900 1 1 + pyTruncF f - 2 < 1 ∨
          3652059 < pyToordinal 1900 1 1 + pyTruncF f - 2)) := by
  unfold convert
  by_cases h0 : d = PyVal.none ∨ d = PyVal.str ""
  · rw [if_pos h0]
    rcases h0 with rfl | rfl <;> simp
  · rw [if_neg h0]
    cases h1 : intBranch d dt with
    | some n =>
      have hdt : dt ≠ Option.some "date-time" := by
        rcases intBranch_some_desired h1 with rfl | rfl <;> decide
      simp [hdt]
    | none =>
      cases h2 : numBranch d dt with
      | some q =>
        have hdt : dt ≠ Option.some "date-time" := by
          rcases numBranch_some_desired h2 with rfl | rfl <;> decide
        simp [hdt]
      | none =>
        by_cases h3 : dt = Option.some "date-time"
        · subst h3
          rw [if_pos rfl]
          cases d with
          | none => simp at h0
          | int n => simp [dateBranch]
          | str s =>
            unfold dateBranch
            cases hp : parse s <;> simp [hp]
          | float f =>
            unfold dateBranch excelSerial
            cases hford : pyFromordinal (pyToordinal 1900 1 1 + pyTruncF f - 2) with
            | error e =>
              have hrange : pyToordinal 1900 1 1 + pyTruncF f - 2 < 1 ∨
                  3652059 < pyToordinal 1900 1 1 + pyTruncF f - 2 :=
                (pyFromordinal_error_iff _).mp ⟨e, hford⟩
              simp [hford, hrange]
            | ok dt0 =>
              have hrange : ¬(pyToordinal 1900 1 1 + pyTruncF f - 2 < 1 ∨
                  3652059 < pyToordinal 1900 1 1 + pyTruncF f - 2) := by
                intro hc
                rcases (pyFromordinal_error_iff _).mpr hc with ⟨e, he⟩
                rw [hford] at he
                cases he
              simp [hford, hrange]
        · rw [if_neg h3]
          simp [h3]

/-- Every result of `convert` carrying the `string` tag holds the stringified
datum. -/
lemma convert_string_fallback (parse : String → Option SimpleDT) (d : PyVal) (dt : Option String)
    (v : PyVal) (h : convert parse d dt = Except.ok (v, Option.some "string")) :
    v = PyVal.str (pyStr d) := by
  unfold convert at h
  by_cases h0 : d = PyVal.none ∨ d = PyVal.str ""
  · rw [if_pos h0] at h
    simp at h
  · rw [if_neg h0] at h
    cases h1 : intBranch d dt with
    | some n =>
      rw [h1] at h
      simp at h
    | none =>
      rw [h1] at h
      cases h2 : numBranch d dt with
      | some q =>
        rw [h2] at h
        simp at h
      | none =>
        rw [h2] at h
        by_cases h3 : dt = Option.some "date-time"
        · rw [if_pos h3] at h
          cases h4 : dateBranch parse d with
          | ok o =>
            rw [h4] at h
            cases o with
            | some iso => simp at h
            | none =>
              simp at h
              exact h.symm
          | error e =>
            rw [h4] at h
            cases h
        · rw [if_neg h3] at h
          simp at h
          exact h.symm

lemma convert_ok_of_ne_datetime (parse : String → Option SimpleDT) (d : PyVal) (dt : Option String)
    (hdt : dt ≠ Option.some "date-time") :
    ∃ r, convert parse d dt = Except.ok r := by
  cases hres : convert parse d dt with
  | ok r => exact ⟨r, rfl⟩
  | error e => exact absurd ((convert_error_iff parse d dt).mp ⟨e, hres⟩).1 hdt

/-- C6.  Under an unconstrained or `integer` desired type, `convert` returns the
`integer` tag exactly when `int(datum)` succeeds and the sign-stripped string
form of the datum consists solely of digits (so `"3.0"` is never classified
`integer`); concretely `convert("42", None) = (42, integer)`,
`convert("42.5", None) = (42.5, number)`, and `convert("", "integer")` and
`convert(None, "string")` both give `(None, None)`. -/
theorem claim6_integer_rule (parse : String → Option SimpleDT) (d : PyVal) (dt : Option String) :
    ((∃ v, convert parse d dt = Except.ok (v, Option.some "integer")) ↔
      ((dt = Option.none ∨ dt = Option.some "integer") ∧ (pyIntConv d).isSome = true ∧
        pyIsdigit (lstripSigns (pyStr d)) = true)) ∧
    convert parse (PyVal.str "42") Option.none = Except.ok (PyVal.int 42, Option.some "integer") ∧
    convert parse (PyVal.str "42.5") Option.none =
      Except.ok (PyVal.float ⟨425, 1⟩, Option.some "number") ∧
    convert parse (PyVal.str "") (Option.some "integer") = Except.ok (PyVal.none, Option.none) ∧
    convert parse PyVal.none (Option.some "string") = Except.ok (PyVal.none, Option.none) :=
  ⟨(convert_tag_integer_iff parse d dt).trans (intBranch_isSome_iff d dt), rfl, rfl, rfl, rfl⟩

/-- C7 counterexample.  `convert` can raise: at the float `10000000.0` with
desired type `date-time`, general parsing raises `TypeError` (caught), the Excel
fallback computes ordinal `693596 + 10000000 - 2`, and `datetime.fromordinal`
raises an uncaught `ValueError` — so the Type Coercer is not exception-free. -/
theorem claim7_uncaught_valueerror_counterexample :
    convert (fun _ => Option.none) (PyVal.float ⟨10000000, 0⟩) (Option.some "date-time") =
      Except.error PyError.valueError := by
  decide

/-- C7 amended.  `convert` raises exactly when the desired type is `date-time`,
the datum is a float, and the Excel ordinal `693596 + int(datum) - 2` falls
outside `datetime`'s supported range `1 ..= 3652059` (an uncaught `ValueError`
from `fromordinal`); in every other case it returns a pair, and any value that
fits no earlier rule degrades to `(str(value), string)`. -/
theorem claim7_error_characterization (parse : String → Option SimpleDT)
    (d : PyVal) (dt : Option String) :
    ((∃ e, convert parse d dt = Except.error e) ↔
      (dt = Option.some "date-time" ∧ ∃ f, d = PyVal.float f ∧
        (pyToordinal 1900 1 1 + pyTruncF f - 2 < 1 ∨
          3652059 < pyToordinal 1900 1 1 + pyTruncF f - 2))) ∧
    (∀ v, convert parse d dt = Except.ok (v, Option.some "string") → v = PyVal.str (pyStr d)) :=
  ⟨convert_error_iff parse d dt, fun v hv => convert_string_fallback parse d dt v hv⟩

/-- C7 witness: the fallback clause of `claim7_error_characterization` at the
unparseable string `"abc"`, whose `string`-tagged result is its own
stringification. -/
theorem claim7_error_characterization_witness :
    PyVal.str "abc" = PyVal.str (pyStr (PyVal.str "abc")) :=
  (claim7_error_characterization (fun _ => Option.none) (PyVal.str "abc") Option.none).2
    (PyVal.str "abc") (by decide)

lemma discover_stream_errors (ops : ExternalOps) (name : String) (prefer : Bool) :
    ∃ e, discover_stream ops name prefer = Except.error e := by
  unfold discover_stream
  cases h1 : ops.parse_start_date name with
  | error e => exact ⟨e, rfl⟩
  | ok u =>
    cases h2 : ops.get_matching_objects name with
    | error e => exact ⟨e, rfl⟩
    | ok u2 =>
      cases h3 : ops.sample_files name with
      | error e => exact ⟨e, rfl⟩
      | ok samples =>
        refine ⟨PyError.typeError, ?_⟩
        simp only [h1, h2, h3]
        unfold generate_schema_kwcall
        rw [if_neg (by decide)]

/-- C4.  The schema-build call in `discover` passes the keyword argument
`prefer_schema_as_string`, which `generate_schema` does not accept, so the call
raises `TypeError` inside the per-stream `try` block: whenever the external
steps succeed the stream still fails with `TypeError`, and for every
configuration and every behaviour of the external collaborators `discover`
returns a catalog with zero streams. -/
theorem claim4_discover_empty_catalog :
    pyKwargsAccepted generate_schema_params discover_call_kwargs = false ∧
    (∀ ops name prefer, ops.parse_start_date name = Except.ok () →
      ops.get_matching_objects name = Except.ok () →
      (∃ s, ops.sample_files name = Except.ok s) →
      discover_stream ops name prefer = Except.error PyError.typeError) ∧
    (∀ ops tables, discover ops tables = []) := by
  refine ⟨by decide, ?_, ?_⟩
  · intro ops name prefer h1 h2 h3
    rcases h3 with ⟨s, hs⟩
    unfold discover_stream
    simp only [h1, h2, hs]
    unfold generate_schema_kwcall
    rw [if_neg (by decide)]
  · intro ops tables
    induction tables with
    | nil => rfl
    | cons t rest ih =>
      unfold discover at ih ⊢
      rw [List.foldr_cons]
      rcases discover_stream_errors ops t.1 t.2 with ⟨e, he⟩
      rw [he]
      exact ih

/-- External collaborators that all succeed, with an empty sample set. -/
def opsAllOk : ExternalOps :=
  { parse_start_date := fun _ => Except.ok ()
    get_matching_objects := fun _ => Except.ok ()
    sample_files := fun _ => Except.ok []
    dateutil_parse := fun _ => Option.none }

/-- C4 witness: `claim4_discover_empty_catalog` with fully succeeding external
collaborators — the stream still dies with `TypeError`. -/
theorem claim4_discover_empty_catalog_witness :
    discover_stream opsAllOk "stream1" false = Except.error PyError.typeError :=
  claim4_discover_empty_catalog.2.1 opsAllOk "stream1" false rfl rfl ⟨[], rfl⟩

lemma coerce_ofList_eval (parse : String → Option SimpleDT) (v : PyVal) (l : List String)
    (dty : String) (r : PyVal × Option String)
    (hv : ¬(v = PyVal.none ∨ v = PyVal.str ""))
    (hnull : l.contains "null" = true)
    (hh : (l.erase "null").head? = Option.some dty)
    (hr : convert parse v (Option.some dty) = Except.ok r) :
    coerce parse v (TypeDecl.ofList l) = Except.ok (r.1, TypeDecl.ofList (l.erase "null")) := by
  obtain ⟨cv, tag⟩ := r
  unfold coerce
  rw [if_neg hv]
  simp only [hnull, if_true, hh, hr]

/-- C10.  `coerce` mutates its `declared_types` list in place: when a schema
field's declared type is a list containing `"null"`, coercing the first
non-trivial value of that field removes the entry from the very list object held
by the schema, so the schema that `convert_row` hands back maps the key to the
shortened list — which differs from the original. -/
theorem claim10_coerce_mutates_schema (parse : String → Option SimpleDT)
    (properties : List (String × TypeDecl)) (k : String) (L : List String) (v : PyVal)
    (hk : dictFind properties k = Option.some (TypeDecl.ofList L))
    (hnull : L.contains "null" = true)
    (hhead : (L.erase "null").head? ≠ Option.none)
    (hd : (L.erase "null").head? ≠ Option.some "date-time")
    (hv : ¬(v = PyVal.none ∨ v = PyVal.str "")) :
    ∃ out, convert_row parse [(k, v)] properties =
        Except.ok (out, dictSet properties k (TypeDecl.ofList (L.erase "null"))) ∧
      L.erase "null" ≠ L := by
  have hmem : "null" ∈ L := by simpa using hnull
  have hne : L.erase "null" ≠ L := by
    intro heq
    have hlen := List.length_erase_of_mem hmem
    rw [heq] at hlen
    have hpos := List.length_pos_of_mem hmem
    omega
  cases hh : (L.erase "null").head? with
  | none => exact absurd hh hhead
  | some dty =>
    have hdty : dty ≠ "date-time" := by
      intro hc
      rw [hc] at hh
      exact hd hh
    rcases convert_ok_of_ne_datetime parse v (Option.some dty)
        (fun hc => hdty (Option.some.inj hc)) with ⟨r, hr⟩
    refine ⟨[(k, r.1)], ?_, hne⟩
    unfold convert_row
    simp only [hk, coerce_ofList_eval parse v L dty r hv hnull hh hr]
    rfl

/-- C10 witness: `claim10_coerce_mutates_schema` on the schema
`{amount: ["null", "integer"]}` and the row `{amount: "42"}` — the returned
schema holds `["integer"]`, a different list than the caller's original. -/
theorem claim10_coerce_mutates_schema_witness :
    ∃ out, convert_row (fun _ => Option.none) [("amount", PyVal.str "42")]
        [("amount", TypeDecl.ofList ["null", "integer"])] =
      Except.ok (out, dictSet [("amount", TypeDecl.ofList ["null", "integer"])] "amount"
        (TypeDecl.ofList (["null", "integer"].erase "null"))) ∧
      ["null", "integer"].erase "null" ≠ ["null", "integer"] :=
  claim10_coerce_mutates_schema (fun _ => Option.none) _ "amount" ["null", "integer"]
    (PyVal.str "42") (by decide) (by decide) (by decide) (by decide) (by decide)

end TapSpreadsheets
